import Mathlib

/-!
Verification development for the traffic-dashboard real-time layer.

The definitions below are a shallow embedding of two source files:

* `src/frontend/src/services/trafficAPI.ts` — the `handleResponse` helper of
  the HTTP client and the `WebSocketService` class (connection manager with
  exponential reconnect backoff).
* `src/frontend/src/components/TrafficDashboard.tsx` — the dashboard
  component: its `service.onMessage` callback (message router and reducers),
  its `service.onClose` handler, the `callApi` helper and the dropzone
  wiring.

JavaScript values flowing through these functions are modelled by a `Json`
inductive; `undefined` results of property accesses are modelled by
`Option Json` with `none` standing for undefined.  Millisecond delays are
modelled by `ℚ`: every delay the code can produce is of the form
`min 30000 (5000 * (3/2)^k)`, and all such values are exactly representable
as IEEE doubles, so rational arithmetic coincides with the JavaScript
number arithmetic on the reachable values.
-/

/-- A parsed JSON value, the result of a successful `JSON.parse`. -/
inductive Json where
  | null : Json
  | bool (b : Bool) : Json
  | num (q : ℚ) : Json
  | str (s : String) : Json
  | arr (items : List Json) : Json
  | obj (fields : List (String × Json)) : Json

/-- First binding of a key in an object field list.  Objects produced by
`JSON.parse` have unique keys, so first-match lookup agrees with
JavaScript property access. -/
def lookupField : List (String × Json) → String → Option Json
  | [], _ => none
  | (k, v) :: rest, key => if k = key then some v else lookupField rest key

/-- Replace the binding of a key, keeping its position, or append it:
the behaviour of a JavaScript object literal that spreads an object and
then writes the key again. -/
def setField : List (String × Json) → String → Json → List (String × Json)
  | [], key, v => [(key, v)]
  | (k, w) :: rest, key, v =>
      if k = key then (k, v) :: rest else (k, w) :: setField rest key v

/-- JavaScript property access `x.k` on a value known to be defined:
yields the field of an object, and `undefined` (here `none`) on every
non-object, which is what property access on a primitive returns. -/
def jsGet : Json → String → Option Json
  | Json.obj fields, key => lookupField fields key
  | _, _ => none

/-- JavaScript optional-chained access `x?.k` where `x` may itself be
undefined: short-circuits on undefined and `null`, otherwise property
access. -/
def jsGetOpt : Option Json → String → Option Json
  | some (Json.obj fields), key => lookupField fields key
  | _, _ => none

/-- JavaScript truthiness of a defined value (`NaN` is not modelled:
no value in these flows can be `NaN`). -/
def jsTruthy : Json → Bool
  | Json.null => false
  | Json.bool b => b
  | Json.num q => decide (q ≠ 0)
  | Json.str s => decide (s ≠ "")
  | Json.arr _ => true
  | Json.obj _ => true

/-- Truthiness of a possibly-undefined value; `undefined` is falsy. -/
def jsTruthyOpt : Option Json → Bool
  | none => false
  | some v => jsTruthy v

/-- JavaScript strict equality `x === "k"` of a possibly-undefined value
with a string literal: true exactly when the value is that string. -/
def jsStrictEqStr : Option Json → String → Bool
  | some (Json.str s), k => s == k
  | _, _ => false

/-- The enumerable own properties produced by spreading a value into an
object literal: objects give their fields, arrays and strings give
index-keyed entries, other primitives give nothing. -/
def jsSpreadFields : Json → List (String × Json)
  | Json.obj fields => fields
  | Json.arr items => items.enum.map fun p => (Nat.repr p.1, p.2)
  | Json.str s => s.data.enum.map fun p => (Nat.repr p.1, Json.str (String.mk [p.2]))
  | _ => []

/-- ASCII model of `String.prototype.toLowerCase`. -/
def jsToLower (s : String) : String := String.mk (s.data.map Char.toLower)

/-- Helper for `String.prototype.includes`: is `needle` a contiguous
segment of `hay`? -/
def charsInfix (needle : List Char) : List Char → Bool
  | [] => needle.isEmpty
  | c :: rest => needle.isPrefixOf (c :: rest) || charsInfix needle rest

/-- JavaScript `hay.includes(needle)`. -/
def strIncludes (hay needle : String) : Bool := charsInfix needle.data hay.data

/-! ## Dashboard application state and the `service.onMessage` callback

From `TrafficDashboard.tsx`.  The React `useState` hooks are collected in
one record; the message callback becomes a function on it. -/

/-- The dashboard state touched by the embedded handlers: the five
`useState` hooks of `TrafficDashboard` (the `activeTab` hook is pure
presentation and never read by the handlers, so it is omitted). -/
structure AppState where
  intersectionStatus : Option Json
  detectionResults : Option Json
  analyticsData : Option Json
  isSimulationRunning : Option Bool
  isLoading : Bool
  isConnecting : Bool

/-- The initial hook values: everything absent, not loading,
connecting. -/
def appInit : AppState :=
  { intersectionStatus := none, detectionResults := none, analyticsData := none,
    isSimulationRunning := none, isLoading := false, isConnecting := true }

/-- The `intersection_status` branch of `service.onMessage`
(TrafficDashboard.tsx lines 295–302): `setIntersectionStatus(data.data)`,
then derive `isRunning = data.data?.system_status?.toLowerCase().includes("operational")`
and update `isSimulationRunning` only when that is a boolean.  When
`system_status` is present but not a string, `toLowerCase` throws inside
the surrounding try block after the snapshot write, so the net state
effect is the same as not updating the running flag. -/
def statusReducer (data : Json) (s : AppState) : AppState :=
  let snap := jsGet data "data"
  let statusText := jsGetOpt snap "system_status"
  let running : Option Bool :=
    match statusText with
    | some (Json.str t) => some (strIncludes (jsToLower t) "operational")
    | _ => none
  { s with intersectionStatus := snap,
           isSimulationRunning :=
             match running with
             | some b => some b
             | none => s.isSimulationRunning }

/-- The `vehicle_detection` branch (line 305):
`setDetectionResults(data.data)`. -/
def detectionReducer (data : Json) (s : AppState) : AppState :=
  { s with detectionResults := jsGet data "data" }

/-- The `emergency_alert` branch (lines 310–313): the functional update
`setIntersectionStatus(prev => ({...(prev ?? {}), emergency_mode_active: data.data?.is_active ?? false}))`. -/
def alertReducer (data : Json) (s : AppState) : AppState :=
  let active : Json :=
    match jsGetOpt (jsGet data "data") "is_active" with
    | none => Json.bool false
    | some Json.null => Json.bool false
    | some v => v
  let prevFields : List (String × Json) :=
    match s.intersectionStatus with
    | none => []
    | some prev => jsSpreadFields prev
  { s with intersectionStatus :=
             some (Json.obj (setField prevFields "emergency_mode_active" active)) }

/-- The body of `service.onMessage` (TrafficDashboard.tsx lines 286–329):
guard `if (!data || !data.type) return;`, then dispatch on
`data.type === ...`; unknown types only log. -/
def handleMessage (data : Json) (s : AppState) : AppState :=
  if !jsTruthy data || !jsTruthyOpt (jsGet data "type") then s
  else if jsStrictEqStr (jsGet data "type") "intersection_status" then
    statusReducer data s
  else if jsStrictEqStr (jsGet data "type") "vehicle_detection" then
    detectionReducer data s
  else if jsStrictEqStr (jsGet data "type") "emergency_alert" then
    alertReducer data s
  else s

/-- An inbound wire frame: either text that `JSON.parse` rejects, or the
parsed value. -/
inductive Frame where
  | malformed (raw : String) : Frame
  | parsed (data : Json) : Frame

/-- Effect of one inbound frame on the dashboard state: the
`ws.onmessage` handler (trafficAPI.ts lines 220–232) parses the text in
a try block — a parse failure only logs and never reaches the handler —
and otherwise invokes the registered dashboard callback. -/
def processFrame (s : AppState) (f : Frame) : AppState :=
  match f with
  | Frame.malformed _ => s
  | Frame.parsed data => handleMessage data s

/-- Effect of a sequence of inbound frames, processed strictly in
arrival order. -/
def processFrames (s : AppState) (fs : List Frame) : AppState :=
  fs.foldl processFrame s

/-- The `service.onClose` handler of the dashboard (TrafficDashboard.tsx
lines 332–344): mark connecting, assume stopped, clear the snapshot. -/
def onCloseHandler (s : AppState) : AppState :=
  { s with isConnecting := true, isSimulationRunning := some false,
           intersectionStatus := none }

/-- The emergency-active flag as the rendering layer reads it:
`intersectionStatus?.emergency_mode_active` (lines 154 and 699),
`none` meaning undefined. -/
def emergencyField (s : AppState) : Option Json :=
  match s.intersectionStatus with
  | some snap => jsGet snap "emergency_mode_active"
  | none => none

/-! ## HTTP response handling

From `handleResponse` in `trafficAPI.ts` lines 16–39. -/

/-- A fetch response as `handleResponse` observes it: the numeric status,
the status text, and whether the body text parses as JSON (and as what).
`none` means `response.json()` would reject. -/
structure HttpResponse where
  status : Nat
  statusText : String
  jsonBody : Option Json

/-- The `Response.ok` getter of the fetch API: status in the range
200–299. -/
def respOk (r : HttpResponse) : Bool := 200 ≤ r.status && r.status ≤ 299

/-- String coercion applied by `new Error(message)` when the message is
not already a string.  Only the string case is exercised by realistic
payloads; the numeric case renders the rational verbatim rather than in
JavaScript number notation, which no theorem below depends on. -/
def jsDisplay : Json → String
  | Json.str s => s
  | Json.bool true => "true"
  | Json.bool false => "false"
  | Json.null => "null"
  | Json.num q => toString q
  | Json.arr _ => ""
  | Json.obj _ => "[object Object]"

/-- `handleResponse` (trafficAPI.ts lines 16–39).  `Except.error m`
models `throw new Error(m)`; `Except.ok v` models a resolved promise. -/
def handleResponse (r : HttpResponse) : Except String Json :=
  if !respOk r then
    let errorData : Json :=
      match r.jsonBody with
      | some j => j
      | none =>
          Json.obj [("detail",
            Json.str (if r.statusText = "" then "Unknown fetch error" else r.statusText))]
    let errorMessage : String :=
      match jsGet errorData "detail" with
      | some v =>
          if jsTruthy v then jsDisplay v
          else "HTTP error! Status: " ++ Nat.repr r.status
      | none => "HTTP error! Status: " ++ Nat.repr r.status
    Except.error errorMessage
  else if r.status = 204 || r.status = 202 then
    Except.ok (Json.obj [("status", Json.num r.status), ("message", Json.str r.statusText)])
  else
    match r.jsonBody with
    | some j => Except.ok j
    | none => Except.error "Failed to parse API response JSON."

/-! ## Command layer

From `TrafficDashboard.tsx`: the `callApi` helper (lines 438–457), and
the dropzone wiring (lines 401–434).  Ghost field `requestCalls` counts
invocations of the underlying request function. -/

/-- The command-layer state: the single `isLoading` hook that the
component uses around every request, plus a ghost counter of underlying
request-function invocations. -/
structure CmdState where
  isLoading : Bool
  requestCalls : Nat
deriving DecidableEq

/-- Initial command-layer state. -/
def cmdInit : CmdState := { isLoading := false, requestCalls := 0 }

/-- The synchronous prefix of `callApi` (lines 444–447):
`setIsLoading(true)`, show the loading toast, and invoke `apiCall()`.
There is no duplicate or in-flight check of any kind before the
invocation. -/
def callApiStart (s : CmdState) : CmdState :=
  { isLoading := true, requestCalls := s.requestCalls + 1 }

/-- The `finally` block of `callApi` (line 455): `setIsLoading(false)`
when the request settles. -/
def callApiSettle (s : CmdState) : CmdState := { s with isLoading := false }

/-- A drop gesture on the dropzone as wired in `useDropzone` (line 407):
the `disabled: isLoading` option makes react-dropzone ignore the gesture
entirely while `isLoading` is true; otherwise `onDrop` runs, whose
synchronous prefix (lines 414–422) is the same set-loading-then-invoke
pattern as `callApi`. -/
def dropzoneDrop (s : CmdState) : CmdState :=
  if s.isLoading then s else callApiStart s

/-! ## The WebSocket connection manager

From the `WebSocketService` class in `trafficAPI.ts` lines 189–300.  The
model tracks, besides the instance fields of the class, every WebSocket
object the instance ever created (the class attaches its callbacks to
each one, and those callbacks keep firing even after the field `ws`
stops referencing the object).  Ghost fields record the number of
`new WebSocket(...)` constructions, the delays passed to `setTimeout`,
and the messages delivered to the registered handler. -/

/-- JavaScript `Math.min` on the rationals that model the millisecond
delays. -/
def jsMin (a b : ℚ) : ℚ := if a ≤ b then a else b

/-- The readyState of one WebSocket object. -/
inductive SockState where
  | connecting : SockState
  | opened : SockState
  | closing : SockState
  | closed : SockState
deriving DecidableEq

/-- Model state of one `WebSocketService` instance together with the
transport objects it created.  `sockets i` is the readyState of the
socket created `i`-th, if it exists; `wsField` is the instance field
`this.ws`; `messageHandler` is `this.messageHandler` (handlers are
identified by numbers); `timerPending` is the armed reconnect timer with
its delay; `reconnectDelay` is the instance field of the same name. -/
structure WSModel where
  sockets : Nat → Option SockState
  wsField : Option Nat
  messageHandler : Option Nat
  timerPending : Option ℚ
  reconnectDelay : ℚ
  nextId : Nat
  connectCount : Nat
  scheduledDelays : List ℚ
  deliveries : List (Nat × Nat)

/-- The state right after field initialisation, before the constructor
body runs `connect()`. -/
def initWS : WSModel :=
  { sockets := fun _ => none, wsField := none, messageHandler := none,
    timerPending := none, reconnectDelay := 5000, nextId := 0,
    connectCount := 0, scheduledDelays := [], deliveries := [] }

/-- Update the readyState of one socket. -/
def setSock (f : Nat → Option SockState) (i : Nat) (st : SockState) :
    Nat → Option SockState :=
  fun j => if j = i then some st else f j

/-- The private `connect()` method (lines 202–249): return if
`this.ws && this.ws.readyState === WebSocket.OPEN`, otherwise construct
a new WebSocket (readyState CONNECTING), store it in `this.ws` and
attach the instance callbacks.  The previously referenced socket, if
any, is neither closed nor detached. -/
def connect (m : WSModel) : WSModel :=
  if m.wsField.bind m.sockets = some SockState.opened then m
  else
    { m with sockets := setSock m.sockets m.nextId SockState.connecting,
             wsField := some m.nextId,
             nextId := m.nextId + 1,
             connectCount := m.connectCount + 1 }

/-- The private `scheduleReconnect()` method (lines 251–260): clear any
pending timer, then arm `setTimeout` with the current
`this.reconnectDelay`.  The multiplication of the delay happens inside
the timer callback, not here. -/
def scheduleReconnect (m : WSModel) : WSModel :=
  { m with timerPending := some m.reconnectDelay,
           scheduledDelays := m.scheduledDelays ++ [m.reconnectDelay] }

/-- The events that drive a `WebSocketService` instance: the constructor
running `connect()`; the transport completing or closing the handshake
of socket `i`; a parseable text frame arriving on socket `i`; the armed
reconnect timer expiring; the public `disconnect()`; the public
`onMessage(handler)`. -/
inductive WSEvent where
  | construct : WSEvent
  | sockOpen (i : Nat) : WSEvent
  | sockClose (i : Nat) : WSEvent
  | msgArrive (i : Nat) (msg : Nat) : WSEvent
  | timerFire : WSEvent
  | disconnect : WSEvent
  | setHandler (h : Nat) : WSEvent

/-- One event step of the service.  Each branch is the corresponding
callback or method body from the source:

* `sockOpen`: `ws.onopen` (lines 212–218) resets `reconnectDelay` to
  5000 and clears the pending timer.
* `sockClose`: `ws.onclose` (lines 239–243) sets `this.ws = null` and
  calls `scheduleReconnect()` — unconditionally, with no check that the
  close was manually initiated and no check that the closing socket is
  still the one referenced by `this.ws`.
* `msgArrive`: `ws.onmessage` (lines 220–232) invokes
  `this.messageHandler` on the parsed frame if one is registered.
* `timerFire`: the `setTimeout` callback (lines 254–259) updates
  `reconnectDelay` to `min(30000, reconnectDelay * 1.5)` and calls
  `connect()`.
* `disconnect`: lines 287–295 — clear the timer, null the handler, and
  `close()` the referenced socket (readyState goes to CLOSING; the
  transport will deliver its close event later).
* `setHandler`: `onMessage` (lines 269–271) overwrites the single
  handler field. -/
def step (m : WSModel) (e : WSEvent) : WSModel :=
  match e with
  | WSEvent.construct => connect m
  | WSEvent.sockOpen i =>
      if m.sockets i = some SockState.connecting then
        { m with sockets := setSock m.sockets i SockState.opened,
                 reconnectDelay := 5000, timerPending := none }
      else m
  | WSEvent.sockClose i =>
      match m.sockets i with
      | some SockState.connecting | some SockState.opened | some SockState.closing =>
          scheduleReconnect
            { m with sockets := setSock m.sockets i SockState.closed, wsField := none }
      | _ => m
  | WSEvent.msgArrive i msg =>
      if m.sockets i = some SockState.opened then
        match m.messageHandler with
        | some h => { m with deliveries := m.deliveries ++ [(h, msg)] }
        | none => m
      else m
  | WSEvent.timerFire =>
      match m.timerPending with
      | some _ =>
          connect { m with timerPending := none,
                           reconnectDelay := jsMin 30000 (m.reconnectDelay * (3 / 2)) }
      | none => m
  | WSEvent.disconnect =>
      let m1 := { m with timerPending := none, messageHandler := none }
      match m1.wsField with
      | some i =>
          { m1 with sockets := setSock m1.sockets i SockState.closing, wsField := none }
      | none => m1
  | WSEvent.setHandler h => { m with messageHandler := some h }

/-- Run a sequence of events from the freshly initialised instance. -/
def runWS (es : List WSEvent) : WSModel := es.foldl step initWS

/-- The delay the backoff policy reaches after `k` timer expiries:
`min(30000, 5000 * 1.5^k)`. -/
def capPow (k : Nat) : ℚ := jsMin 30000 (5000 * (3 / 2) ^ k)

/-- The event suffix of `n` consecutive connection failures after the
initial `construct`: the `k`-th failure closes the socket created
`k-1`-th, and the reconnect timer then fires. -/
def failureEvents : Nat → List WSEvent
  | 0 => []
  | n + 1 => failureEvents n ++ [WSEvent.sockClose n, WSEvent.timerFire]

/-- Is an event a handler registration? -/
def isSetHandler : WSEvent → Bool
  | WSEvent.setHandler _ => true
  | _ => false

/-! ## Claim-side frame classifiers

Vocabulary used to state the properties; each is a direct reading of the
wire contract. -/

/-- The discriminant values the router recognises. -/
def recognizedKinds : List String :=
  ["intersection_status", "vehicle_detection", "emergency_alert"]

/-- A frame the specification says must be dropped without any state
change: unparseable text, a missing discriminant field, or a
discriminant that is not one of the recognised strings. -/
def claimDroppable : Frame → Bool
  | Frame.malformed _ => true
  | Frame.parsed data =>
      match jsGet data "type" with
      | none => true
      | some (Json.str t) => !(recognizedKinds.contains t)
      | some _ => true

/-- A frame of kind `emergency_alert`. -/
def frameIsAlert : Frame → Bool
  | Frame.parsed data => jsStrictEqStr (jsGet data "type") "emergency_alert"
  | _ => false

/-- The active flag carried by an alert frame:
`data.data?.is_active`. -/
def frameActiveFlag : Frame → Option Json
  | Frame.parsed data => jsGetOpt (jsGet data "data") "is_active"
  | _ => none

/-- A message of kind `intersection_status`. -/
def frameIsStatus (data : Json) : Bool :=
  jsStrictEqStr (jsGet data "type") "intersection_status"

/-- The status text carried by a status message:
`data.data?.system_status`. -/
def statusTextOf (data : Json) : Option Json :=
  jsGetOpt (jsGet data "data") "system_status"

/-- The fixed substring rule deriving the running flag from the status
text: lower-case it and test for the operational marker. -/
def runningFromStatus (t : String) : Bool :=
  strIncludes (jsToLower t) "operational"

/-! ## General lemmas -/

/-- Looking up the key just written by `setField` yields the written
value. -/
theorem lookupField_setField (l : List (String × Json)) (key : String) (v : Json) :
    lookupField (setField l key v) key = some v := by
  induction l with
  | nil => simp [setField, lookupField]
  | cons p rest ih =>
      obtain ⟨k, w⟩ := p
      by_cases h : k = key
      · simp [setField, lookupField, h]
      · simp [setField, lookupField, h, ih]

/-- Strict equality with a string literal pins down the value. -/
theorem jsStrictEqStr_eq_some (o : Option Json) (k : String)
    (h : jsStrictEqStr o k = true) : o = some (Json.str k) := by
  match o with
  | none => simp [jsStrictEqStr] at h
  | some Json.null => simp [jsStrictEqStr] at h
  | some (Json.bool b) => simp [jsStrictEqStr] at h
  | some (Json.num q) => simp [jsStrictEqStr] at h
  | some (Json.str s) =>
      simp [jsStrictEqStr] at h
      rw [h]
  | some (Json.arr l) => simp [jsStrictEqStr] at h
  | some (Json.obj f) => simp [jsStrictEqStr] at h

/-- A defined property can only come from an object. -/
theorem jsGet_some_obj (data : Json) (key : String) (v : Json)
    (h : jsGet data key = some v) : ∃ fl, data = Json.obj fl := by
  cases data with
  | obj fl => exact ⟨fl, rfl⟩
  | null => simp [jsGet] at h
  | bool b => simp [jsGet] at h
  | num q => simp [jsGet] at h
  | str s => simp [jsGet] at h
  | arr l => simp [jsGet] at h

/-- Dispatch shape of the message callback once the discriminant is
known to be the string `k`. -/
theorem handleMessage_dispatch (data : Json) (s : AppState) (k : String)
    (hk : jsGet data "type" = some (Json.str k)) (hne : k ≠ "") :
    handleMessage data s =
      if k = "intersection_status" then statusReducer data s
      else if k = "vehicle_detection" then detectionReducer data s
      else if k = "emergency_alert" then alertReducer data s
      else s := by
  obtain ⟨fl, hfl⟩ := jsGet_some_obj data "type" _ hk
  subst hfl
  simp [handleMessage, hk, jsTruthy, jsTruthyOpt, jsStrictEqStr, hne]

/-- A droppable parsed message leaves the state untouched. -/
theorem handleMessage_droppable (data : Json) (s : AppState)
    (h : claimDroppable (Frame.parsed data) = true) : handleMessage data s = s := by
  unfold handleMessage
  cases htype : jsGet data "type" with
  | none => simp [jsTruthyOpt, htype]
  | some v =>
      cases v with
      | str t =>
          have hne : ∀ k, k ∈ recognizedKinds → t ≠ k := by
            simp [claimDroppable, htype] at h
            intro k hk ht
            subst ht
            exact absurd hk h
          have h1 : t ≠ "intersection_status" := hne _ (by simp [recognizedKinds])
          have h2 : t ≠ "vehicle_detection" := hne _ (by simp [recognizedKinds])
          have h3 : t ≠ "emergency_alert" := hne _ (by simp [recognizedKinds])
          simp [htype, jsStrictEqStr, h1, h2, h3]
      | null => simp [htype, jsStrictEqStr, jsTruthyOpt, jsTruthy]
      | bool b => simp [htype, jsStrictEqStr]
      | num q => simp [htype, jsStrictEqStr]
      | arr l => simp [htype, jsStrictEqStr]
      | obj f => simp [htype, jsStrictEqStr]

/-- The alert reducer stores the carried flag under
`emergency_mode_active`, regardless of the previous snapshot. -/
theorem alertReducer_flag (data : Json) (s : AppState) (v : Json)
    (hv : jsGetOpt (jsGet data "data") "is_active" = some v) (hnn : v ≠ Json.null) :
    emergencyField (alertReducer data s) = some v := by
  unfold alertReducer emergencyField
  have hactive :
      (match jsGetOpt (jsGet data "data") "is_active" with
       | none => Json.bool false
       | some Json.null => Json.bool false
       | some v => v) = v := by
    rw [hv]
    cases v with
    | null => exact absurd rfl hnn
    | bool b => rfl
    | num q => rfl
    | str t => rfl
    | arr l => rfl
    | obj f => rfl
  simp only [hactive]
  simp only [jsGet, lookupField_setField]

/-- `connect` never touches the handler field. -/
theorem connect_messageHandler (m : WSModel) :
    (connect m).messageHandler = m.messageHandler := by
  unfold connect
  split <;> rfl

/-- `connect` never touches the deliveries log. -/
theorem connect_deliveries (m : WSModel) :
    (connect m).deliveries = m.deliveries := by
  unfold connect
  split <;> rfl

/-- `disconnect` nulls the handler field. -/
theorem step_disconnect_handler (m : WSModel) :
    (step m WSEvent.disconnect).messageHandler = none := by
  unfold step
  cases m.wsField <;> rfl

/-- `disconnect` does not deliver anything. -/
theorem step_disconnect_deliveries (m : WSModel) :
    (step m WSEvent.disconnect).deliveries = m.deliveries := by
  unfold step
  cases m.wsField <;> rfl


/-- Every event except a registration leaves an empty handler slot
empty. -/
theorem step_handler_stays_none (m : WSModel) (e : WSEvent)
    (hm : m.messageHandler = none) (he : isSetHandler e = false) :
    (step m e).messageHandler = none := by
  cases e with
  | construct => simp only [step, connect_messageHandler]; exact hm
  | sockOpen i => simp only [step]; split <;> simpa using hm
  | sockClose i => simp only [step]; split <;> simp [scheduleReconnect, hm]
  | msgArrive i msg => simp only [step, hm]; split <;> simpa using hm
  | timerFire =>
      simp only [step]
      split
      · simpa [connect_messageHandler] using hm
      · exact hm
  | disconnect => exact step_disconnect_handler m
  | setHandler h => simp [isSetHandler] at he

/-- With no registered handler, no event appends to the deliveries
log. -/
theorem step_deliveries_stay (m : WSModel) (e : WSEvent)
    (hm : m.messageHandler = none) :
    (step m e).deliveries = m.deliveries := by
  cases e with
  | construct => simp only [step, connect_deliveries]
  | sockOpen i => simp only [step]; split <;> rfl
  | sockClose i => simp only [step]; split <;> simp [scheduleReconnect]
  | msgArrive i msg => simp only [step, hm]; split <;> rfl
  | timerFire =>
      simp only [step]
      split
      · simp [connect_deliveries]
      · rfl
  | disconnect => exact step_disconnect_deliveries m
  | setHandler h => rfl

/-- Once the handler slot is empty, a registration-free event sequence
delivers nothing. -/
theorem run_deliveries_no_register (es : List WSEvent) (m : WSModel)
    (hm : m.messageHandler = none)
    (hes : es.all (fun e => !isSetHandler e) = true) :
    (es.foldl step m).deliveries = m.deliveries := by
  induction es generalizing m with
  | nil => rfl
  | cons e rest ih =>
      simp only [List.all_cons, Bool.and_eq_true, Bool.not_eq_true'] at hes
      obtain ⟨he, hrest⟩ := hes
      have hm2 := step_handler_stays_none m e hm he
      calc ((e :: rest).foldl step m).deliveries
          = (rest.foldl step (step m e)).deliveries := rfl
        _ = (step m e).deliveries := by
              apply ih (step m e) hm2
              simp only [List.all_eq_true] at hrest ⊢
              exact hrest
        _ = m.deliveries := step_deliveries_stay m e hm

/-- The capped-growth recurrence performed by the timer callback, in
closed form. -/
theorem capPow_succ (k : Nat) : capPow (k + 1) = jsMin 30000 (capPow k * (3 / 2)) := by
  unfold capPow jsMin
  by_cases h : (30000 : ℚ) ≤ 5000 * (3 / 2) ^ k
  · rw [if_pos h]
    have h1 : (30000 : ℚ) ≤ 5000 * (3 / 2) ^ (k + 1) := by
      have hstep : (5000 : ℚ) * (3 / 2) ^ k ≤ 5000 * (3 / 2) ^ (k + 1) := by
        have hpos : (0 : ℚ) < 5000 * (3 / 2) ^ k := by positivity
        have harg : (5000 : ℚ) * (3 / 2) ^ (k + 1) = 5000 * (3 / 2) ^ k * (3 / 2) := by
          ring
        rw [harg]
        linarith
      linarith
    rw [if_pos h1, if_pos (by norm_num)]
  · rw [if_neg h]
    have harg : (5000 : ℚ) * (3 / 2) ^ (k + 1) = 5000 * (3 / 2) ^ k * (3 / 2) := by
      ring
    rw [harg]

/-- Invariant after `construct` followed by `n` complete failure
cycles: the service is waiting on its `n`-th socket, no timer is armed,
the backoff delay has been multiplied `n` times, and the armed delays so
far were exactly the capped powers. -/
def FailInv (n : Nat) (m : WSModel) : Prop :=
  m.wsField = some n ∧ m.nextId = n + 1 ∧ m.timerPending = none ∧
  m.sockets n = some SockState.connecting ∧
  m.reconnectDelay = capPow n ∧
  m.scheduledDelays = (List.range n).map capPow ∧
  m.connectCount = n + 1

/-- The invariant holds after construction. -/
theorem failInv_zero : FailInv 0 (runWS [WSEvent.construct]) := by
  refine ⟨rfl, rfl, rfl, rfl, ?_, rfl, rfl⟩
  simp [runWS, step, connect, initWS, setSock, capPow, jsMin]
  norm_num

/-- One failure cycle takes the invariant from `n` to `n + 1`. -/
theorem failInv_step (n : Nat) (m : WSModel) (h : FailInv n m) :
    FailInv (n + 1) (step (step m (WSEvent.sockClose n)) WSEvent.timerFire) := by
  obtain ⟨h1, h2, h3, h4, h5, h6, h7⟩ := h
  have hclose : step m (WSEvent.sockClose n) =
      scheduleReconnect
        { m with sockets := setSock m.sockets n SockState.closed, wsField := none } := by
    simp only [step, h4]
  rw [hclose]
  simp only [scheduleReconnect, step, connect, setSock]
  refine ⟨?_, ?_, ?_, ?_, ?_, ?_, ?_⟩
  · simp [h2]
  · simp [h2]
  · rfl
  · simp [setSock, h2]
  · simp [h5, capPow_succ]
  · simp [h6, h5, List.range_succ]
  · simp [h7]

/-- The invariant holds after any number of consecutive failures. -/
theorem failInv_run (n : Nat) : FailInv n (runWS (WSEvent.construct :: failureEvents n)) := by
  induction n with
  | zero => exact failInv_zero
  | succ k ih =>
      have hsplit : runWS (WSEvent.construct :: failureEvents (k + 1)) =
          step (step (runWS (WSEvent.construct :: failureEvents k))
            (WSEvent.sockClose k)) WSEvent.timerFire := by
        show ((WSEvent.construct :: failureEvents (k + 1)).foldl step initWS) = _
        rw [failureEvents]
        rw [show WSEvent.construct :: (failureEvents k ++ [WSEvent.sockClose k, WSEvent.timerFire])
              = (WSEvent.construct :: failureEvents k) ++ [WSEvent.sockClose k, WSEvent.timerFire]
            from rfl]
        rw [List.foldl_append]
        rfl
      rw [hsplit]
      exact failInv_step k _ ih

/-- `getLast?` of the capped-power list. -/
theorem rangeMap_getLast (n : Nat) (h : 1 ≤ n) :
    ((List.range n).map capPow).getLast? = some (capPow (n - 1)) := by
  obtain ⟨k, rfl⟩ := Nat.exists_eq_add_of_le h
  rw [Nat.add_comm 1 k]
  rw [show List.range (k + 1) = List.range k ++ [k] by simp [List.range_succ]]
  rw [List.map_append]
  simp [List.getLast?_concat]

/-! ## The claims -/

/-- C1.  Evaluation of the connection manager at the failing input.
When `disconnect()` is called while a reconnect timer is pending
(RECONNECT_SCHEDULED), the timer is cancelled and nothing further
happens — that part of the claim holds.  But when `disconnect()` is
called while the socket is OPEN, the close notification of the manually
closed socket still runs the `onclose` callback, which unconditionally
re-arms a 5000 ms reconnect timer, and its expiry performs another
connect attempt: `connectCount` rises from 1 to 2 after the manual
close, contradicting the claim (and the comment inside `disconnect`)
that no further connect attempts ever occur. -/
theorem c1_disconnect_reconnect_bug :
    (runWS [WSEvent.construct, WSEvent.sockClose 0,
            WSEvent.disconnect]).timerPending = none ∧
    (runWS [WSEvent.construct, WSEvent.sockClose 0, WSEvent.disconnect,
            WSEvent.timerFire]).connectCount = 1 ∧
    (runWS [WSEvent.construct, WSEvent.sockOpen 0,
            WSEvent.disconnect]).timerPending = none ∧
    (runWS [WSEvent.construct, WSEvent.sockOpen 0, WSEvent.disconnect,
            WSEvent.sockClose 0]).timerPending = some 5000 ∧
    (runWS [WSEvent.construct, WSEvent.sockOpen 0, WSEvent.disconnect,
            WSEvent.sockClose 0, WSEvent.timerFire]).connectCount = 2 := by
  refine ⟨by decide, by decide, by decide, by decide, by decide⟩

/-- C2, counterexample.  After one connection failure (N = 1) the delay
armed for the reconnect attempt is 5000 ms, not the claimed
`min(30000, 5000 * 1.5^1) = 7500` ms: the code multiplies the delay
when the timer fires, after the armed delay has already been fixed. -/
theorem c2_scheduled_delay_counterexample :
    (runWS [WSEvent.construct, WSEvent.sockClose 0]).scheduledDelays = [(5000 : ℚ)] ∧
    (5000 : ℚ) ≠ jsMin 30000 (5000 * (3 / 2) ^ (1 : Nat)) := by
  constructor
  · decide
  · simp only [jsMin]
    norm_num

/-- C2, amended.  After `n ≥ 1` consecutive failures with no successful
open in between, the delay armed for the next reconnect attempt is
`min(30000, 5000 * 1.5^(n-1))` — the exponent is the number of timer
expiries so far, one less than the number of failures.  And after a
successful open, the delay armed for the next failure is again
5000 ms. -/
theorem c2_backoff_amended (n : Nat) (h : 1 ≤ n) :
    (runWS (WSEvent.construct :: failureEvents n)).scheduledDelays.getLast?
        = some (jsMin 30000 (5000 * (3 / 2) ^ (n - 1))) ∧
    (runWS ((WSEvent.construct :: failureEvents n) ++
        [WSEvent.sockOpen n, WSEvent.sockClose n])).scheduledDelays.getLast?
        = some 5000 := by
  obtain ⟨h1, h2, h3, h4, h5, h6, h7⟩ := failInv_run n
  constructor
  · rw [h6, rangeMap_getLast n h]
    rfl
  · have hsplit : runWS ((WSEvent.construct :: failureEvents n) ++
        [WSEvent.sockOpen n, WSEvent.sockClose n]) =
        step (step (runWS (WSEvent.construct :: failureEvents n))
          (WSEvent.sockOpen n)) (WSEvent.sockClose n) := by
      show (((WSEvent.construct :: failureEvents n) ++ _).foldl step initWS) = _
      rw [List.foldl_append]
      rfl
    rw [hsplit]
    have hstep1 : step (runWS (WSEvent.construct :: failureEvents n)) (WSEvent.sockOpen n) =
        { runWS (WSEvent.construct :: failureEvents n) with
            sockets := setSock (runWS (WSEvent.construct :: failureEvents n)).sockets n
              SockState.opened,
            reconnectDelay := 5000, timerPending := none } := by
      simp only [step, h4]
      simp
    rw [hstep1]
    simp only [step, setSock]
    simp [scheduleReconnect, List.getLast?_concat]

/-- C2, witness.  The amended statement instantiated at n = 2: the
second failure arms `min(30000, 5000 * 1.5) = 7500` ms, and a
successful open resets the next armed delay to 5000 ms. -/
theorem c2_backoff_amended_witness :
    (runWS (WSEvent.construct :: failureEvents 2)).scheduledDelays.getLast?
        = some (jsMin 30000 (5000 * (3 / 2) ^ (2 - 1 : Nat))) ∧
    (runWS ((WSEvent.construct :: failureEvents 2) ++
        [WSEvent.sockOpen 2, WSEvent.sockClose 2])).scheduledDelays.getLast?
        = some 5000 :=
  c2_backoff_amended 2 (by decide)

/-- C3, counterexample.  `callApi` performs no duplicate-in-flight
check: a second execution started while the first is still loading
invokes the underlying request function a second time (two calls, not
the claimed exactly one), and no rejection path for duplicates exists
in the function. -/
theorem c3_duplicate_guard_counterexample :
    (callApiStart (callApiStart cmdInit)).requestCalls = 2 ∧
    ¬(callApiStart (callApiStart cmdInit)).requestCalls = 1 := by
  refine ⟨rfl, by decide⟩

/-- C3, amended.  The only duplicate suppression is the UI-level
`disabled: isLoading` wiring: while a command is loading, a second drop
gesture is silently ignored — the state is unchanged, so the underlying
request function runs exactly once and no duplicate-in-flight rejection
is ever produced. -/
theorem c3_loading_guard_amended (s : CmdState) (h : s.isLoading = false) :
    dropzoneDrop s = callApiStart s ∧
    dropzoneDrop (dropzoneDrop s) = callApiStart s ∧
    (dropzoneDrop (dropzoneDrop s)).requestCalls = s.requestCalls + 1 := by
  have h1 : dropzoneDrop s = callApiStart s := by
    simp [dropzoneDrop, h]
  have h2 : dropzoneDrop (callApiStart s) = callApiStart s := by
    simp [dropzoneDrop, callApiStart]
  refine ⟨h1, by rw [h1, h2], by rw [h1, h2]; rfl⟩

/-- C3, witness.  The amended statement at the initial state. -/
theorem c3_loading_guard_amended_witness :
    dropzoneDrop cmdInit = callApiStart cmdInit ∧
    dropzoneDrop (dropzoneDrop cmdInit) = callApiStart cmdInit ∧
    (dropzoneDrop (dropzoneDrop cmdInit)).requestCalls = cmdInit.requestCalls + 1 :=
  c3_loading_guard_amended cmdInit rfl

/-- C4, counterexample.  Processing an `intersection_status` frame
whose payload carries `emergency_mode_active: true` flips the
emergency-active flag from false to true, because the snapshot holding
the flag is replaced wholesale — so the flag is not written only by
alert processing and the disconnect handler. -/
theorem c4_status_frame_counterexample :
    emergencyField (handleMessage
        (Json.obj [("type", Json.str "intersection_status"),
                   ("data", Json.obj [("emergency_mode_active", Json.bool true)])])
        { appInit with intersectionStatus := some (Json.obj [("emergency_mode_active", Json.bool false)]) })
      = some (Json.bool true) ∧
    emergencyField
        { appInit with intersectionStatus := some (Json.obj [("emergency_mode_active", Json.bool false)]) }
      = some (Json.bool false) ∧
    Json.bool true ≠ Json.bool false := by
  refine ⟨rfl, rfl, by simp⟩

/-- C4, amended.  The emergency-active flag is written by the alert
reducer and cleared by the disconnect handler, but it is additionally
rewritten by every `intersection_status` frame: afterwards it equals
whatever `emergency_mode_active` value the frame payload carries
(undefined when the payload lacks one), since the snapshot is replaced
wholesale. -/
theorem c4_emergency_writers_amended (data : Json) (s : AppState)
    (h : frameIsStatus data = true) :
    emergencyField (handleMessage data s) =
      jsGetOpt (jsGet data "data") "emergency_mode_active" ∧
    emergencyField (onCloseHandler s) = none := by
  have hk := jsStrictEqStr_eq_some _ _ h
  constructor
  · rw [handleMessage_dispatch data s "intersection_status" hk (by decide)]
    simp only [if_pos]
    unfold emergencyField statusReducer
    cases hd : jsGet data "data" with
    | none => simp [jsGetOpt]
    | some snap => cases snap <;> simp [jsGetOpt, jsGet]
  · rfl

/-- C4, witness.  The amended statement at a concrete status frame and
a concrete prior state: the frame payload rewrites the flag, and the
disconnect handler clears it. -/
theorem c4_emergency_writers_amended_witness :
    emergencyField (handleMessage
        (Json.obj [("type", Json.str "intersection_status"),
                   ("data", Json.obj [("emergency_mode_active", Json.bool true)])])
        appInit)
      = jsGetOpt (jsGet (Json.obj [("type", Json.str "intersection_status"),
          ("data", Json.obj [("emergency_mode_active", Json.bool true)])]) "data")
          "emergency_mode_active" ∧
    emergencyField (onCloseHandler appInit) = none :=
  c4_emergency_writers_amended
    (Json.obj [("type", Json.str "intersection_status"),
               ("data", Json.obj [("emergency_mode_active", Json.bool true)])])
    appInit (by decide)

/-- C5, counterexample.  Invoking `connect()` while the managed socket
is still CONNECTING is not a no-op: the guard only checks for the OPEN
readyState, so a second WebSocket is constructed (`connectCount` rises
from 1 to 2), the field now references the new socket, and the old one
is left in the CONNECTING state, neither closed nor detached — the
manager momentarily has two live channels. -/
theorem c5_connect_while_connecting_counterexample :
    (runWS [WSEvent.construct]).sockets 0 = some SockState.connecting ∧
    (connect (runWS [WSEvent.construct])).connectCount = 2 ∧
    (connect (runWS [WSEvent.construct])).sockets 0 = some SockState.connecting ∧
    (connect (runWS [WSEvent.construct])).sockets 1 = some SockState.connecting ∧
    (connect (runWS [WSEvent.construct])).wsField = some 1 := by
  refine ⟨by decide, by decide, by decide, by decide, by decide⟩

/-- C5, amended.  `connect()` is a no-op exactly when the referenced
socket is OPEN: in that case no new transport channel is created and
the state is untouched.  (While CONNECTING, per the counterexample, a
new channel is created.) -/
theorem c5_connect_open_noop (m : WSModel) (i : Nat) (h1 : m.wsField = some i)
    (h2 : m.sockets i = some SockState.opened) : connect m = m := by
  unfold connect
  rw [h1]
  simp [Option.bind, h2]

/-- C5, witness.  The no-op case at the state reached after a
successful open. -/
theorem c5_connect_open_noop_witness :
    connect (runWS [WSEvent.construct, WSEvent.sockOpen 0])
      = runWS [WSEvent.construct, WSEvent.sockOpen 0] :=
  c5_connect_open_noop (runWS [WSEvent.construct, WSEvent.sockOpen 0]) 0
    (by decide) (by decide)

/-- C6.  Any sequence of frames in which every frame is unparseable,
lacks the discriminant field, or carries an unrecognised discriminant
value leaves the application state completely unchanged. -/
theorem c6_droppable_frames_no_state_change (fs : List Frame) (s : AppState)
    (h : fs.all claimDroppable = true) : processFrames s fs = s := by
  induction fs generalizing s with
  | nil => rfl
  | cons f rest ih =>
      simp only [List.all_cons, Bool.and_eq_true] at h
      obtain ⟨h1, h2⟩ := h
      cases f with
      | malformed raw =>
          calc processFrames s (Frame.malformed raw :: rest)
              = processFrames s rest := rfl
            _ = s := ih s h2
      | parsed data =>
          calc processFrames s (Frame.parsed data :: rest)
              = processFrames (handleMessage data s) rest := rfl
            _ = processFrames s rest := by rw [handleMessage_droppable data s h1]
            _ = s := ih s h2

/-- C6, witness.  A malformed frame, an unknown discriminant, a missing
discriminant and a non-object frame, processed in sequence from the
initial state, change nothing. -/
theorem c6_droppable_frames_no_state_change_witness :
    processFrames appInit
      [Frame.malformed "not json",
       Frame.parsed (Json.obj [("type", Json.str "mystery_kind")]),
       Frame.parsed (Json.obj [("payload", Json.num 3)]),
       Frame.parsed Json.null] = appInit :=
  c6_droppable_frames_no_state_change
    [Frame.malformed "not json",
     Frame.parsed (Json.obj [("type", Json.str "mystery_kind")]),
     Frame.parsed (Json.obj [("payload", Json.num 3)]),
     Frame.parsed Json.null] appInit (by decide)

/-- C7.  After processing a non-empty sequence of `emergency_alert`
frames, the emergency-active flag equals the active flag carried by the
most recently processed frame (any defined, non-null `is_active`
value). -/
theorem c7_last_alert_wins (fs : List Frame) (f : Frame) (s : AppState) (v : Json)
    (hall : (fs ++ [f]).all frameIsAlert = true)
    (hv : frameActiveFlag f = some v) (hnn : v ≠ Json.null) :
    emergencyField (processFrames s (fs ++ [f])) = some v := by
  cases f with
  | malformed raw => simp [frameActiveFlag] at hv
  | parsed data =>
      have hlast : frameIsAlert (Frame.parsed data) = true := by
        simp only [List.all_append, List.all_cons, Bool.and_eq_true] at hall
        exact hall.2.1
      have hk := jsStrictEqStr_eq_some _ _ hlast
      have hfold : processFrames s (fs ++ [Frame.parsed data])
          = handleMessage data (processFrames s fs) := by
        unfold processFrames
        rw [List.foldl_append]
        rfl
      rw [hfold]
      rw [handleMessage_dispatch data (processFrames s fs) "emergency_alert" hk (by decide)]
      simp only [if_neg (by decide : ¬("emergency_alert" = "intersection_status")),
                 if_neg (by decide : ¬("emergency_alert" = "vehicle_detection")),
                 if_pos rfl]
      exact alertReducer_flag data (processFrames s fs) v hv hnn

/-- C7, witness.  Two alert frames, active then inactive: the flag ends
up false, the value carried by the later frame. -/
theorem c7_last_alert_wins_witness :
    emergencyField (processFrames appInit
      ([Frame.parsed (Json.obj [("type", Json.str "emergency_alert"),
          ("data", Json.obj [("is_active", Json.bool true)])])] ++
       [Frame.parsed (Json.obj [("type", Json.str "emergency_alert"),
          ("data", Json.obj [("is_active", Json.bool false)])])]))
      = some (Json.bool false) :=
  c7_last_alert_wins
    [Frame.parsed (Json.obj [("type", Json.str "emergency_alert"),
        ("data", Json.obj [("is_active", Json.bool true)])])]
    (Frame.parsed (Json.obj [("type", Json.str "emergency_alert"),
        ("data", Json.obj [("is_active", Json.bool false)])]))
    appInit (Json.bool false) (by decide) rfl (by simp)

/-- C8.  An `intersection_status` frame replaces the stored snapshot
wholesale; when the payload carries a string status text, the running
flag becomes the result of the fixed substring rule on it; when the
status text is absent, the previous running flag is kept. -/
theorem c8_status_reducer_contract (data : Json) (s : AppState)
    (h : frameIsStatus data = true) :
    (handleMessage data s).intersectionStatus = jsGet data "data" ∧
    (∀ t, statusTextOf data = some (Json.str t) →
        (handleMessage data s).isSimulationRunning = some (runningFromStatus t)) ∧
    (statusTextOf data = none →
        (handleMessage data s).isSimulationRunning = s.isSimulationRunning) := by
  have hk := jsStrictEqStr_eq_some _ _ h
  rw [handleMessage_dispatch data s "intersection_status" hk (by decide)]
  simp only [if_pos]
  unfold statusTextOf at *
  refine ⟨rfl, ?_, ?_⟩
  · intro t ht
    unfold statusReducer
    simp only [ht]
    rfl
  · intro ht
    unfold statusReducer
    simp only [ht]

/-- C8, witness.  The start/stop round trip: a frame with status text
"operational" makes the derived running flag true, a following frame
with "offline" makes it false (and each replaces the snapshot with its
own payload). -/
theorem c8_status_reducer_contract_witness :
    (handleMessage (Json.obj [("type", Json.str "intersection_status"),
        ("data", Json.obj [("system_status", Json.str "operational")])])
        appInit).isSimulationRunning = some (runningFromStatus "operational") ∧
    runningFromStatus "operational" = true ∧
    (handleMessage (Json.obj [("type", Json.str "intersection_status"),
        ("data", Json.obj [("system_status", Json.str "offline")])])
        appInit).isSimulationRunning = some (runningFromStatus "offline") ∧
    runningFromStatus "offline" = false :=
  ⟨(c8_status_reducer_contract
      (Json.obj [("type", Json.str "intersection_status"),
        ("data", Json.obj [("system_status", Json.str "operational")])])
      appInit (by decide)).2.1 "operational" rfl,
   by decide,
   (c8_status_reducer_contract
      (Json.obj [("type", Json.str "intersection_status"),
        ("data", Json.obj [("system_status", Json.str "offline")])])
      appInit (by decide)).2.1 "offline" rfl,
   by decide⟩

/-- C9, counterexample.  A 404 whose body parses as JSON without a
`detail` field produces the generic message "HTTP error! Status: 404",
not the status text "Not Found" the claim prescribes. -/
theorem c9_error_message_counterexample :
    handleResponse { status := 404, statusText := "Not Found", jsonBody := some (Json.obj [("reason", Json.str "gone")]) }
      = Except.error "HTTP error! Status: 404" ∧
    "HTTP error! Status: 404" ≠ "Not Found" := by
  refine ⟨rfl, by decide⟩

/-- C9, amended.  Full behaviour of `handleResponse`: a non-success
status fails with the body's truthy `detail` when the body parses, with
the status text (or "Unknown fetch error" when it is empty) when the
body does not parse, and with a generic "HTTP error! Status: N" string
when the body parses without a truthy `detail`; statuses 202 and 204
succeed with a synthetic payload built only from status and status
text; every other success status returns the parsed JSON body and fails
when the body does not parse. -/
theorem c9_handle_response_amended (r : HttpResponse) :
    (respOk r = false → ∀ j v, r.jsonBody = some j → jsGet j "detail" = some v →
        jsTruthy v = true → handleResponse r = Except.error (jsDisplay v)) ∧
    (respOk r = false → r.jsonBody = none → r.statusText ≠ "" →
        handleResponse r = Except.error r.statusText) ∧
    (respOk r = false → r.jsonBody = none → r.statusText = "" →
        handleResponse r = Except.error "Unknown fetch error") ∧
    (respOk r = false → ∀ j, r.jsonBody = some j →
        jsTruthyOpt (jsGet j "detail") = false →
        handleResponse r = Except.error ("HTTP error! Status: " ++ Nat.repr r.status)) ∧
    ((r.status = 204 ∨ r.status = 202) →
        handleResponse r = Except.ok (Json.obj [("status", Json.num r.status),
          ("message", Json.str r.statusText)])) ∧
    (respOk r = true → r.status ≠ 204 → r.status ≠ 202 → ∀ j, r.jsonBody = some j →
        handleResponse r = Except.ok j) ∧
    (respOk r = true → r.status ≠ 204 → r.status ≠ 202 → r.jsonBody = none →
        handleResponse r = Except.error "Failed to parse API response JSON.") := by
  refine ⟨?_, ?_, ?_, ?_, ?_, ?_, ?_⟩
  · intro hok j v hb hd ht
    simp [handleResponse, hok, hb, hd, ht]
  · intro hok hb hne
    simp [handleResponse, hok, hb, hne, jsGet, lookupField, jsTruthy, jsDisplay]
  · intro hok hb hempty
    simp [handleResponse, hok, hb, hempty, jsGet, lookupField, jsTruthy, jsDisplay]
  · intro hok j hb hd
    cases hdet : jsGet j "detail" with
    | none => simp [handleResponse, hok, hb, hdet]
    | some v =>
        rw [hdet] at hd
        simp only [jsTruthyOpt] at hd
        simp [handleResponse, hok, hb, hdet, hd]
  · intro hst
    cases hst with
    | inl h204 => simp [handleResponse, respOk, h204]
    | inr h202 => simp [handleResponse, respOk, h202]
  · intro hok h204 h202 j hb
    simp [handleResponse, hok, hb, h204, h202]
  · intro hok h204 h202 hb
    simp [handleResponse, hok, hb, h204, h202]

/-- C9, witness.  The amended statement applied to a 500 response whose
body carries a truthy detail string. -/
theorem c9_handle_response_amended_witness :
    handleResponse { status := 500, statusText := "Server Error", jsonBody := some (Json.obj [("detail", Json.str "boom")]) }
      = Except.error (jsDisplay (Json.str "boom")) :=
  (c9_handle_response_amended { status := 500, statusText := "Server Error", jsonBody := some (Json.obj [("detail", Json.str "boom")]) }).1
    (by decide) (Json.obj [("detail", Json.str "boom")]) (Json.str "boom")
    rfl rfl (by decide)

/-- C10.  The service holds exactly one handler slot: a second
registration replaces the first; an arriving message is delivered to at
most one handler — the currently registered one; and after a
`disconnect` clears the slot, no message in any registration-free
continuation is delivered to application code. -/
theorem c10_single_handler_slot :
    (∀ (m : WSModel) (g1 g2 : Nat),
        (step (step m (WSEvent.setHandler g1)) (WSEvent.setHandler g2)).messageHandler
          = some g2) ∧
    (∀ (m : WSModel) (i msg : Nat),
        (step m (WSEvent.msgArrive i msg)).deliveries = m.deliveries ∨
        ∃ g, m.messageHandler = some g ∧
          (step m (WSEvent.msgArrive i msg)).deliveries = m.deliveries ++ [(g, msg)]) ∧
    (∀ (pre es : List WSEvent), es.all (fun e => !isSetHandler e) = true →
        (runWS (pre ++ WSEvent.disconnect :: es)).deliveries
          = (runWS pre).deliveries) := by
  refine ⟨?_, ?_, ?_⟩
  · intro m g1 g2
    rfl
  · intro m i msg
    by_cases hs : m.sockets i = some SockState.opened
    · cases hg : m.messageHandler with
      | none => left; simp [step, hs, hg]
      | some g => right; exact ⟨g, rfl, by simp [step, hs, hg]⟩
    · left; simp [step, hs]
  · intro pre es hes
    have hsplit : runWS (pre ++ WSEvent.disconnect :: es)
        = es.foldl step (step (runWS pre) WSEvent.disconnect) := by
      show ((pre ++ WSEvent.disconnect :: es).foldl step initWS) = _
      rw [List.foldl_append]
      rfl
    rw [hsplit]
    rw [run_deliveries_no_register es (step (runWS pre) WSEvent.disconnect)
      (step_disconnect_handler (runWS pre)) hes]
    exact step_disconnect_deliveries (runWS pre)

/-- C10, witness.  A handler is registered, the service disconnects,
and a message then arrives on the still-closing socket: nothing is
delivered. -/
theorem c10_single_handler_slot_witness :
    (runWS ([WSEvent.construct, WSEvent.sockOpen 0, WSEvent.setHandler 7] ++
        WSEvent.disconnect :: [WSEvent.msgArrive 0 42])).deliveries
      = (runWS [WSEvent.construct, WSEvent.sockOpen 0, WSEvent.setHandler 7]).deliveries :=
  c10_single_handler_slot.2.2
    [WSEvent.construct, WSEvent.sockOpen 0, WSEvent.setHandler 7]
    [WSEvent.msgArrive 0 42] (by decide)
